import Mathlib

/-!
Shallow embedding of the `astrbot_plugin_service_watcher` repository
(`src/main.py`, `src/lib/status_checker.py`, `src/lib/adapters.py`,
`src/lib/commands.py`, `src/lib/formatters.py`, `src/lib/services.py`).

Network fetches are modelled by passing the already-fetched payload as an
`Option` argument (`none` covers a failed fetch and falsy data, which the
code collapses at `if not data: return None`).  Python dicts read by the
code are modelled by a record of the optional fields the code accesses,
with `Option.getD` standing for `dict.get(key, default)`.  The external
key-value store is a function from keys to `Option String`; `put_kv_data`
is a pointwise update, and the model additionally records the list of put
operations issued, so that frame properties about the store are visible.
-/

namespace SW

/-- The `status` object of a status-page JSON payload: the code reads
`status.get('indicator', 'none')` and `status.get('description', 'Unknown')`. -/
structure StatusObj where
  indicator : Option String
  description : Option String
deriving DecidableEq, Repr

/-- One feed entry as read by the code: `id`, `published`, `link`, `title`. -/
structure Entry where
  id : Option String
  published : Option String
  link : Option String
  title : Option String
deriving DecidableEq, Repr

/-- One incident object as read by the formatters: `name` and `status`. -/
structure Incident where
  name : Option String
  status : Option String
deriving DecidableEq, Repr

/-- The `page` object of a status-page payload: the formatter reads
`page.get('url', '')`. -/
structure PageInfo where
  url : Option String
deriving DecidableEq, Repr

/-- One Alibaba-Cloud event as read by `AliyunAdapter`: `e.get('id', 'unknown')`
(the Python code applies `str`, so the field is modelled already stringified). -/
structure Event where
  id : Option String
deriving DecidableEq, Repr

/-- A fetched payload, modelled as the record of optional fields the code reads:
`status`, `entries`, `incidents`, `page` and the Aliyun `data` list (here named
`events` because `data` is the payload itself in the Python code). -/
structure PyData where
  status : Option StatusObj
  entries : Option (List Entry)
  incidents : Option (List Incident)
  page : Option PageInfo
  events : Option (List Event)
deriving DecidableEq, Repr

/-- Python `a or b` on optional strings: `None` and `""` are falsy, so the
left value is kept only when it is a non-empty string; otherwise the right
operand is returned as-is (even when itself falsy). -/
def pyOr (a b : Option String) : Option String :=
  match a with
  | some s => if s = "" then b else some s
  | none => b

/-- Embedding of `StatusChecker.STATUS_EMOJI` (status_checker.py lines 60-71). -/
def STATUS_EMOJI : List (String × String) :=
  [("none", "✅"), ("operational", "✅"), ("minor", "⚠️"), ("major", "❌"),
   ("critical", "🚨"), ("maintenance", "🔧"), ("degraded_performance", "⚠️"),
   ("partial_outage", "❌"), ("under_maintenance", "🔧"), ("rss_new", "📝")]

/-- Embedding of `StatusChecker.get_emoji`: `STATUS_EMOJI.get(indicator, '📊')`. -/
def get_emoji (indicator : String) : String :=
  (STATUS_EMOJI.lookup indicator).getD "📊"

/-- The dict returned by `StatusChecker.get_status_info`: keys `indicator`,
`description`, `id`, and optionally `raw_status` and `entry`. -/
structure StatusInfo where
  indicator : String
  description : String
  id : Option String
  raw_status : Option StatusObj
  entry : Option Entry
deriving DecidableEq, Repr

/-- Embedding of `StatusChecker.get_status_info` (status_checker.py lines 86-115).
For `statuspage` it reads `status.indicator` / `status.description` (no
translation in this function) and builds `id = f"{indicator}|{description}"`;
for `rss` an empty entry list yields the sentinel, otherwise the first entry
is used with `id = latest.get('id') or latest.get('published') or
latest.get('link')`; any other type yields the `unknown` record. -/
def get_status_info (data : PyData) (service_type : String) : StatusInfo :=
  if service_type = "statuspage" then
    let status := data.status.getD ⟨none, none⟩
    let indicator := status.indicator.getD "none"
    let description := status.description.getD "Unknown"
    { indicator := indicator, description := description,
      id := some (indicator ++ "|" ++ description),
      raw_status := some status, entry := none }
  else if service_type = "rss" then
    match data.entries.getD [] with
    | [] =>
      { indicator := "none", description := "No updates", id := some "empty",
        raw_status := none, entry := none }
    | latest :: _ =>
      { indicator := "rss_new", description := latest.title.getD "新动态",
        id := pyOr latest.id (pyOr latest.published latest.link),
        raw_status := none, entry := some latest }
  else
    { indicator := "unknown", description := "Unknown type", id := some "unknown",
      raw_status := none, entry := none }

/-- The external key-value store: key to stored value.  `none` is both
"absent" and "stored `None`", exactly as `get_kv_data(key, None)` cannot
distinguish the two. -/
def Store : Type := String → Option String

/-- Embedding of `put_kv_data`: pointwise update of the store. -/
def putKV (store : Store) (k : String) (v : Option String) : Store :=
  fun x => if x = k then v else store x

/-- The KV key `f"service_watcher_{service_name}_last_id"` (status_checker.py
line 143). -/
def kv_key (service_name : String) : String :=
  "service_watcher_" ++ service_name ++ "_last_id"

/-- The dict returned by `StatusChecker.check_service`: keys `changed`,
`data`, `type`, `indicator`, `description`, `info`. -/
structure SCResult where
  changed : Bool
  type : String
  indicator : String
  description : String
  info : StatusInfo
  data : PyData
deriving DecidableEq, Repr

/-- Output of one `check_service` call: the returned value (`none` when the
fetch produced no data), the store after the call, and the list of
`put_kv_data` operations issued during the call. -/
structure SCOut where
  result : Option SCResult
  store : Store
  puts : List (String × Option String)

/-- The parameter names of `StatusChecker.check_service` (status_checker.py
lines 122-128), `self` excluded.  The embedding below replaces the
`api_url` plus network fetch by the already-fetched payload.  Note that
`update_db` is NOT among them, although `commands.py` passes it. -/
def check_service_params : List String :=
  ["service_name", "api_url", "service_type", "ignore_cache"]

/-- Embedding of `StatusChecker.check_service` (status_checker.py lines 122-179), with the
fetch replaced by its result.  `none` data returns `None`; otherwise the
status info is computed, the stored last id read; an absent last id is the
first-run branch (store the current id, return `changed=False`); otherwise
`status_changed = ignore_cache or (current_id != last_id)` and the store is
updated exactly when `status_changed`. -/
def check_service (service_name : String) (service_type : String)
    (fetched : Option PyData) (ignore_cache : Bool) (store : Store) : SCOut :=
  match fetched with
  | none => ⟨none, store, []⟩
  | some data =>
    let status_info := get_status_info data service_type
    let current_id := status_info.id
    let key := kv_key service_name
    match store key with
    | none =>
      ⟨some ⟨false, service_type, status_info.indicator, status_info.description,
          status_info, data⟩,
        putKV store key current_id, [(key, current_id)]⟩
    | some last_id =>
      let status_changed := ignore_cache || decide (current_id ≠ some last_id)
      let new_store := if status_changed then putKV store key current_id else store
      let new_puts := if status_changed then [(key, current_id)] else []
      ⟨some ⟨status_changed, service_type, status_info.indicator,
          status_info.description, status_info, data⟩,
        new_store, new_puts⟩

/-- Embedding of `StatusPageAdapter.STATUS_TRANSLATIONS` (adapters.py lines 29-39). -/
def STATUS_TRANSLATIONS : List (String × String) :=
  [("All Systems Operational", "所有系统运行正常"),
   ("Operational", "运行正常"),
   ("Major Service Outage", "严重服务中断"),
   ("Partial System Outage", "部分系统中断"),
   ("Minor Service Outage", "轻微服务中断"),
   ("Degraded Performance", "性能降级"),
   ("Under Maintenance", "正在维护"),
   ("Maintenance", "维护中"),
   ("Unknown", "未知")]

/-- Embedding of `STATUS_TRANSLATIONS.get(raw_description, raw_description)`: the pure
lookup translation applied by `StatusPageAdapter.fetch_status`. -/
def translate_description (raw : String) : String :=
  (STATUS_TRANSLATIONS.lookup raw).getD raw

/-- The `raw_status` value carried by an adapter result: Python stores there
either nothing (`None`), the `status` object, or the whole payload. -/
inductive RawStatus where
  | null : RawStatus
  | obj (s : StatusObj) : RawStatus
  | whole (d : PyData) : RawStatus
deriving DecidableEq, Repr

/-- The dict returned by the adapters in adapters.py: keys `indicator`,
`description`, `id`, `raw_status`, and optionally `entry`. -/
structure AdapterResult where
  indicator : String
  description : String
  id : Option String
  raw_status : RawStatus
  entry : Option Entry
deriving DecidableEq, Repr

/-- Embedding of `StatusPageAdapter.fetch_status` (adapters.py lines 41-58) with the fetch
replaced by its result: reads `status.indicator` / `status.description`,
translates the description through the lookup table, and builds
`id = f"{indicator}|{description}"` from the translated description. -/
def statuspage_adapter_fetch (fetched : Option PyData) : Option AdapterResult :=
  match fetched with
  | none => none
  | some data =>
    let status := data.status.getD ⟨none, none⟩
    let indicator := status.indicator.getD "none"
    let raw_description := status.description.getD "Unknown"
    let description := translate_description raw_description
    some { indicator := indicator, description := description,
           id := some (indicator ++ "|" ++ description),
           raw_status := RawStatus.obj status, entry := none }

/-- Embedding of `RSSAdapter.fetch_status` (adapters.py lines 61-88) with the fetch replaced
by its result: an empty entry list yields the sentinel (`indicator='none'`,
`description='暂无更新'`, `id='empty'`); otherwise the first entry is used,
with `id = latest.get('id') or latest.get('published') or latest.get('link')`
and `raw_status = None`. -/
def rss_adapter_fetch (fetched : Option PyData) : Option AdapterResult :=
  match fetched with
  | none => none
  | some data =>
    match data.entries.getD [] with
    | [] =>
      some { indicator := "none", description := "暂无更新", id := some "empty",
             raw_status := RawStatus.whole data, entry := none }
    | latest :: _ =>
      some { indicator := "rss_new", description := latest.title.getD "新动态",
             id := pyOr latest.id (pyOr latest.published latest.link),
             raw_status := RawStatus.null, entry := some latest }

/-- Lexicographic comparison of character lists by Unicode code point —
exactly how Python compares strings. -/
def strLeB : List Char → List Char → Bool
  | [], _ => true
  | _ :: _, [] => false
  | x :: xs, y :: ys =>
    if x.toNat < y.toNat then true
    else if y.toNat < x.toNat then false
    else strLeB xs ys

/-- Python string order `a <= b`. -/
def pyLe (a b : String) : Prop := strLeB a.data b.data = true

instance : DecidableRel pyLe :=
  fun a b => instDecidableEqBool (strLeB a.data b.data) true

/-- Python `sorted` on a list of strings (lexicographic code-point order).
Modelled by insertion sort: the order is total and antisymmetric, so the
sorted permutation of a list is unique and any correct sorting algorithm is
extensionally the same function. -/
def pySorted (l : List String) : List String :=
  List.insertionSort pyLe l

/-- The incident-ID list of an Aliyun payload:
`[str(e.get('id', 'unknown')) for e in events]` over `data.get('data', [])`. -/
def aliyun_ids (d : PyData) : List String :=
  (d.events.getD []).map (fun e => e.id.getD "unknown")

/-- Embedding of `AliyunAdapter.fetch_status` (adapters.py lines 91-120) with the fetch
replaced by its result: an empty event list yields `indicator='none'`,
`id='empty_list'`; otherwise `event_ids = ",".join(sorted(str(e.get('id',
'unknown')) for e in events))` and the result has `indicator='minor'`,
`description = f"{len(events)} 个活跃事件"`, `id = f"events_{event_ids}"`. -/
def aliyun_adapter_fetch (fetched : Option PyData) : Option AdapterResult :=
  match fetched with
  | none => none
  | some data =>
    match data.events.getD [] with
    | [] =>
      some { indicator := "none", description := "所有系统运行正常",
             id := some "empty_list", raw_status := RawStatus.whole data,
             entry := none }
    | e :: rest =>
      let events := e :: rest
      let event_ids :=
        String.intercalate ","
          (pySorted (events.map (fun ev => ev.id.getD "unknown")))
      some { indicator := "minor",
             description := toString events.length ++ " 个活跃事件",
             id := some ("events_" ++ event_ids),
             raw_status := RawStatus.whole data, entry := none }

/-- Embedding of `format_status_change_message` (formatters.py lines 17-52). -/
def format_status_change_message (service_name : String) (result : SCResult) :
    String :=
  let emoji := get_emoji result.indicator
  let header := if result.type = "statuspage" then "状态变化" else "新动态"
  let message := emoji ++ " 【" ++ service_name ++ "】" ++ header ++ "\n"
      ++ "详情: " ++ result.description ++ "\n"
  if result.type = "statuspage" then
    let data := result.data
    let incidents := data.incidents.getD []
    let message :=
      if incidents.isEmpty then message
      else
        message ++ "\n活动事件:\n"
          ++ (incidents.take 3).foldl
              (fun acc inc =>
                acc ++ "  - " ++ inc.name.getD "未知事件" ++ " ("
                  ++ inc.status.getD "unknown" ++ ")\n") ""
    let page_url := (data.page.map (fun p => p.url.getD "")).getD ""
    if page_url = "" then message else message ++ "\n监控页: " ++ page_url
  else if result.type = "rss" then
    match result.info.entry with
    | none => message
    | some entry =>
      match entry.link with
      | none => message
      | some link => if link = "" then message else message ++ "\n链接: " ++ link
  else
    message

/-- Python `str.strip()`: remove leading and trailing whitespace.  Written
over the character list so that it reduces by structural recursion. -/
def pyStrip (s : String) : String :=
  ⟨(((s.data.dropWhile Char.isWhitespace).reverse.dropWhile
      Char.isWhitespace).reverse)⟩

/-- Embedding of `format_status_list` (formatters.py lines 55-90): header line, then one
block per service — `获取失败` for a `None` result, otherwise emoji plus
description plus at most two incidents — and a final `.strip()`. -/
def format_status_list (services_status : List (String × Option SCResult)) :
    String :=
  if services_status.isEmpty then "未配置任何服务订阅"
  else
    let response :=
      services_status.foldl
        (fun acc entry =>
          match entry.2 with
          | none => acc ++ "【" ++ entry.1 ++ "】\n" ++ "  ❌ 获取失败\n\n"
          | some result =>
            let emoji := get_emoji result.indicator
            let acc := acc ++ "【" ++ entry.1 ++ "】\n"
                ++ "  " ++ emoji ++ " " ++ result.description ++ "\n"
            let acc :=
              if result.type = "statuspage" then
                let incidents := result.data.incidents.getD []
                if incidents.isEmpty then acc
                else
                  acc ++ "  活动事件:\n"
                    ++ (incidents.take 2).foldl
                        (fun a inc =>
                          a ++ "    • " ++ inc.name.getD "未知" ++ " ("
                            ++ inc.status.getD "unknown" ++ ")\n") ""
              else acc
            acc ++ "\n")
        "📊 当前监控的服务状态:\n\n"
    pyStrip response

/-- Embedding of `format_test_result` (formatters.py lines 93-99). -/
def format_test_result (service_name : String) (result : Option SCResult) :
    String :=
  match result with
  | none => "未能获取到 " ++ service_name ++ " 的状态信息"
  | some r => format_status_change_message service_name r

/-- A `Service` entry (services.py lines 7-13). -/
structure Service where
  name : String
  api_url : String
  type : String
  enabled : Bool
deriving DecidableEq, Repr

/-- The keyword arguments `commands.py` passes to `check_service` in
`handle_servicestatus` (lines 43-44) and `handle_servicetest` (lines 85-86):
both pass `ignore_cache` and `update_db`. -/
def manual_call_kwargs : List String :=
  ["ignore_cache", "update_db"]

/-- Outcome of `CommandHandlers.handle_servicestatus`: either the
`未配置任何服务订阅` reply, or the formatted listing, or an uncaught
`TypeError` escaping the handler (there is no try/except around the calls
that build the per-service tasks). -/
inductive StatusReply where
  | noServices : StatusReply
  | listing (text : String) : StatusReply
  | crashed : StatusReply
deriving DecidableEq, Repr

/-- Embedding of `CommandHandlers.handle_servicestatus` (commands.py lines 24-60).  The
handler builds one `check_service(..., ignore_cache=False, update_db=False)`
call per configured service; constructing such a call is valid only when
every keyword it passes is a parameter of `check_service`, otherwise Python
raises `TypeError` at task-creation time and the whole handler aborts.  When
the calls are constructible the results are gathered into a name-to-result
mapping and rendered with `format_status_list`. -/
def handle_servicestatus (services : List (String × Service))
    (fetch : String → Option PyData) (store : Store) : StatusReply :=
  if services.isEmpty then StatusReply.noServices
  else if manual_call_kwargs.all (fun k => check_service_params.contains k) then
    StatusReply.listing
      (format_status_list
        (services.map
          (fun p => (p.1, (check_service p.1 p.2.type (fetch p.1) false store).result))))
  else StatusReply.crashed

/-- Outcome of `CommandHandlers.handle_servicetest`: the `未配置...` reply for
an unknown service, the rendered test report, or the `测试失败: ...` reply
produced when the try/except catches the `TypeError` raised by the
`update_db` keyword. -/
inductive TestReply where
  | notConfigured (text : String) : TestReply
  | report (text : String) : TestReply
  | testFailed : TestReply
deriving DecidableEq, Repr

/-- Embedding of `CommandHandlers.handle_servicetest` (commands.py lines 62-93).  An
unknown service yields the `未配置...` message; otherwise the handler calls
`check_service(..., ignore_cache=True, update_db=False)` inside try/except:
if a passed keyword is not a `check_service` parameter the call raises
`TypeError`, caught as the `测试失败` reply and leaving the store untouched;
otherwise the result is rendered with `format_test_result`. -/
def handle_servicetest (service_name : String)
    (services : List (String × Service)) (fetched : Option PyData)
    (store : Store) : TestReply × Store :=
  match services.lookup service_name with
  | none =>
    (TestReply.notConfigured
      ("未配置或未启用的服务: " ++ service_name ++ "\n已配置服务: "
        ++ String.intercalate ", " (services.map (fun p => p.1))), store)
  | some service =>
    if manual_call_kwargs.all (fun k => check_service_params.contains k) then
      let out := check_service service_name service.type fetched true store
      (TestReply.report (format_test_result service_name out.result), out.store)
    else
      (TestReply.testFailed, store)

/-- The per-service step of `ServiceWatcher._monitor_loop` (main.py lines
88-107) together with `_notify_status_change` (lines 59-74): run
`check_service` (automatic path: default `ignore_cache=False`, no extra
keywords), and if a result came back with `changed` true, send the rendered
message to every notify target.  Returns the check output and the list of
`(target, text)` messages sent. -/
def monitor_check_and_notify (notify_targets : List String)
    (service_name : String) (service_type : String) (fetched : Option PyData)
    (store : Store) : SCOut × List (String × String) :=
  let out := check_service service_name service_type fetched false store
  let notes :=
    match out.result with
    | some r =>
      if r.changed then
        notify_targets.map
          (fun t => (t, format_status_change_message service_name r))
      else []
    | none => []
  (out, notes)

/-- The initial error backoff of `_monitor_loop` (main.py line 80). -/
def error_backoff_init : Nat := 5

/-- Backoff evolution of `_monitor_loop` over a list of cycle outcomes
(`true` = cycle succeeded, `false` = loop-level exception): a success resets
the backoff to 5, a failure doubles it capped at 60 (main.py lines 113-122). -/
def run_backoff (trace : List Bool) (b : Nat) : Nat :=
  trace.foldl (fun b ok => if ok then 5 else min (b * 2) 60) b

/-- The backoff sleeps performed by `_monitor_loop` along a trace: on a
loop-level failure the loop sleeps for the CURRENT backoff before doubling
it (main.py lines 120-122); successful cycles sleep `check_interval`, which
is not a backoff sleep. -/
def backoff_sleeps (trace : List Bool) (b : Nat) : List Nat :=
  match trace with
  | [] => []
  | ok :: rest =>
    if ok then backoff_sleeps rest 5
    else b :: backoff_sleeps rest (min (b * 2) 60)

/-! ### Concrete fixtures used by counterexamples and witnesses -/

/-- An empty key-value store (no service has ever been observed). -/
def empty_store : Store := fun _ => none

/-- A store holding exactly one persisted identity `v` for service `name`. -/
def single_store (name v : String) : Store :=
  fun k => if k = kv_key name then some v else none

/-- A status-page payload with the given `status.indicator` and
`status.description`. -/
def sp_payload (i d : String) : PyData :=
  ⟨some ⟨some i, some d⟩, none, none, none, none⟩

/-- An Aliyun payload whose `data` list carries events with the given ids. -/
def aliyun_payload (ids : List String) : PyData :=
  ⟨none, none, none, none, some (ids.map (fun i => ⟨some i⟩))⟩

/-! ### Helper lemmas -/

theorem char_eq_of_toNat_eq {a b : Char} (h : a.toNat = b.toNat) : a = b := by
  calc a = Char.ofNat a.toNat := (Char.ofNat_toNat a).symm
  _ = Char.ofNat b.toNat := by rw [h]
  _ = b := Char.ofNat_toNat b

theorem strLeB_cons_iff (a b : Char) (x y : List Char) :
    strLeB (a :: x) (b :: y) = true ↔
      a.toNat < b.toNat ∨ (a.toNat = b.toNat ∧ strLeB x y = true) := by
  by_cases h1 : a.toNat < b.toNat
  · simp [strLeB, h1]
  · by_cases h2 : b.toNat < a.toNat
    · simp only [strLeB, if_neg h1, if_pos h2]
      constructor
      · intro h
        exact absurd h (by simp)
      · rintro (h | ⟨h, -⟩) <;> omega
    · have he : a.toNat = b.toNat := by omega
      simp [strLeB, h1, h2, he]

theorem strLeB_total : ∀ x y : List Char, strLeB x y = true ∨ strLeB y x = true
  | [], _ => Or.inl rfl
  | _ :: _, [] => Or.inr rfl
  | a :: x, b :: y => by
    rcases Nat.lt_trichotomy a.toNat b.toNat with h | h | h
    · left
      simp [strLeB, h]
    · have h1 : ¬ a.toNat < b.toNat := by omega
      have h2 : ¬ b.toNat < a.toNat := by omega
      simpa [strLeB, h1, h2, h] using strLeB_total x y
    · right
      simp [strLeB, h]

theorem strLeB_trans :
    ∀ x y z : List Char, strLeB x y = true → strLeB y z = true →
      strLeB x z = true
  | [], _, _, _, _ => rfl
  | _ :: _, [], _, h1, _ => absurd h1 (by simp [strLeB])
  | _ :: _, _ :: _, [], _, h2 => absurd h2 (by simp [strLeB])
  | a :: x, b :: y, c :: z, h1, h2 => by
    rw [strLeB_cons_iff] at h1 h2 ⊢
    rcases h1 with h1 | ⟨h1e, h1r⟩
    · rcases h2 with h2 | ⟨h2e, h2r⟩
      · left; omega
      · left; omega
    · rcases h2 with h2 | ⟨h2e, h2r⟩
      · left; omega
      · exact Or.inr ⟨by omega, strLeB_trans x y z h1r h2r⟩

theorem strLeB_antisymm :
    ∀ x y : List Char, strLeB x y = true → strLeB y x = true → x = y
  | [], [], _, _ => rfl
  | [], _ :: _, _, h2 => absurd h2 (by simp [strLeB])
  | _ :: _, [], h1, _ => absurd h1 (by simp [strLeB])
  | a :: x, b :: y, h1, h2 => by
    rw [strLeB_cons_iff] at h1 h2
    rcases h1 with h1 | ⟨h1e, h1r⟩
    · rcases h2 with h2 | ⟨h2e, -⟩ <;> (exfalso; omega)
    · rcases h2 with h2 | ⟨h2e, h2r⟩
      · exfalso; omega
      · rw [char_eq_of_toNat_eq h1e, strLeB_antisymm x y h1r h2r]

/-- Python `sorted` is invariant under permutation of its input: the order is
total, transitive and antisymmetric, so the sorted permutation is unique. -/
theorem pySorted_eq_of_perm {l1 l2 : List String} (h : l1.Perm l2) :
    pySorted l1 = pySorted l2 := by
  haveI : IsTotal String pyLe := ⟨fun a b => strLeB_total a.data b.data⟩
  haveI : IsTrans String pyLe :=
    ⟨fun a b c h1 h2 => strLeB_trans a.data b.data c.data h1 h2⟩
  haveI : IsAntisymm String pyLe :=
    ⟨fun a b h1 h2 => String.ext (strLeB_antisymm a.data b.data h1 h2)⟩
  exact List.eq_of_perm_of_sorted
    ((List.perm_insertionSort pyLe l1).trans
      (h.trans (List.perm_insertionSort pyLe l2).symm))
    (List.sorted_insertionSort pyLe l1) (List.sorted_insertionSort pyLe l2)

theorem string_append_right_inj {a b : String} (p : String)
    (h : p ++ a = p ++ b) : a = b := by
  have hd := congrArg String.data h
  simp only [String.data_append] at hd
  exact String.ext (List.append_cancel_left hd)

theorem string_append_left_inj {a b : String} (s : String)
    (h : a ++ s = b ++ s) : a = b := by
  have hd := congrArg String.data h
  simp only [String.data_append] at hd
  exact String.ext (List.append_cancel_right hd)

/-! ### Claims -/

/-- C1: the claim says the manual query path (GetAllStatuses / TestService,
which request no persistence) leaves the persisted last-seen identity
unchanged.  In the code this path is broken: `update_db` is not a parameter
of `check_service`, so the manual commands raise `TypeError` (`servicetest`
catches it and replies 测试失败), and the underlying `check_service` — the
only behaviour the manual path could invoke — overwrites the stored identity
whenever the snapshot identity differs (here `operational|All systems
operational` becomes `major|Outage`). -/
theorem c1_manual_query_typeerror :
    ("update_db" ∉ check_service_params)
  ∧ handle_servicetest "svc"
      [("svc", ⟨"svc", "https://example.com/api", "statuspage", true⟩)]
      (some (sp_payload "major" "Outage"))
      (single_store "svc" "operational|All systems operational")
    = (TestReply.testFailed,
       single_store "svc" "operational|All systems operational")
  ∧ single_store "svc" "operational|All systems operational" (kv_key "svc")
    = some "operational|All systems operational"
  ∧ (check_service "svc" "statuspage" (some (sp_payload "major" "Outage")) true
      (single_store "svc" "operational|All systems operational")).store
      (kv_key "svc")
    = some "major|Outage" :=
  ⟨by decide, rfl, by decide, by decide⟩

/-- C2: the claim says a failed fetch in a multi-service GetAllStatuses call
yields `获取失败` for that service while the others render normally.  The
code instead aborts the whole query: building the per-service calls passes
the keyword `update_db`, which `check_service` does not accept, so the
handler raises `TypeError` before any check runs.  The second conjunct shows
that `format_status_list` applied to the per-service results the gather
would have produced does render exactly the claimed mapping, so the
formatter supports the claim and only the broken call site prevents it. -/
theorem c2_getallstatuses_crash :
    handle_servicestatus
      [("A", ⟨"A", "https://a.example/api", "statuspage", true⟩),
       ("B", ⟨"B", "https://b.example/api", "statuspage", true⟩)]
      (fun n => if n = "A" then none else some (sp_payload "operational" "OK"))
      empty_store
    = StatusReply.crashed
  ∧ format_status_list
      [("A", (check_service "A" "statuspage" none false empty_store).result),
       ("B", (check_service "B" "statuspage"
          (some (sp_payload "operational" "OK")) false empty_store).result)]
    = "📊 当前监控的服务状态:\n\n【A】\n  ❌ 获取失败\n\n【B】\n  ✅ OK" :=
  ⟨by decide, by decide⟩

/-- C3: first-ever observation — with no persisted identity for the service,
`check_service` on any successfully fetched payload returns `changed=false`
(whatever the indicator and whatever `ignore_cache` is) and stores the
snapshot's identity as the baseline. -/
theorem c3_first_observation_baseline (service_name service_type : String)
    (d : PyData) (ignore_cache : Bool) (st : Store)
    (h : st (kv_key service_name) = none) :
    ((check_service service_name service_type (some d) ignore_cache st).result.map
        (fun r => r.changed)) = some false
  ∧ (check_service service_name service_type (some d) ignore_cache st).store
      (kv_key service_name) = (get_status_info d service_type).id := by
  simp [check_service, h, putKV]

/-- Witness for C3 at the spec's Scenario 1: indicator `operational`,
description `All systems operational`, never-seen service — `changed=false`
and the store now holds `operational|All systems operational`. -/
theorem c3_first_observation_baseline_witness :
    empty_store (kv_key "github") = none
  ∧ ((check_service "github" "statuspage"
        (some (sp_payload "operational" "All systems operational")) false
        empty_store).result.map (fun r => r.changed)) = some false
  ∧ (check_service "github" "statuspage"
      (some (sp_payload "operational" "All systems operational")) false
      empty_store).store (kv_key "github")
    = some "operational|All systems operational" :=
  ⟨rfl,
   (c3_first_observation_baseline "github" "statuspage"
     (sp_payload "operational" "All systems operational") false empty_store rfl).1,
   ((c3_first_observation_baseline "github" "statuspage"
     (sp_payload "operational" "All systems operational") false empty_store rfl).2).trans
     (by decide)⟩

/-- C4 counterexample: the claim says the force flag affects only the
reported `changed` result, with writes governed by an independent
persistWrite policy.  At a store whose identity equals the snapshot identity,
`ignore_cache=true` issues a `put_kv_data` that `ignore_cache=false` does not
— the flag alone decides the write — and no `persistWrite`/`update_db`
parameter exists on `check_service` at all. -/
theorem c4_counterexample :
    ("update_db" ∉ check_service_params)
  ∧ (check_service "svc" "statuspage" (some (sp_payload "operational" "OK"))
      true (single_store "svc" "operational|OK")).puts
    = [(kv_key "svc", some "operational|OK")]
  ∧ (check_service "svc" "statuspage" (some (sp_payload "operational" "OK"))
      false (single_store "svc" "operational|OK")).puts = []
  ∧ ((check_service "svc" "statuspage" (some (sp_payload "operational" "OK"))
      true (single_store "svc" "operational|OK")).result.map
        (fun r => r.changed)) = some true :=
  ⟨by decide, by decide, by decide, by decide⟩

/-- C4 amended: with a stored identity present, `ignore_cache=true` always
reports `changed=true` (even when the snapshot identity equals the stored
one) and overwrites the stored identity with the current one; persistence
follows the same `changed` flag rather than an independent policy, but the
resulting store CONTENTS are the same as without the flag (the forced write
stores the value that was already there or that an unforced change would
have written). -/
theorem c4_amended_force_flag (service_name service_type : String)
    (d : PyData) (st : Store) (last : String)
    (h : st (kv_key service_name) = some last) :
    ((check_service service_name service_type (some d) true st).result.map
        (fun r => r.changed)) = some true
  ∧ (check_service service_name service_type (some d) true st).store
      (kv_key service_name) = (get_status_info d service_type).id
  ∧ ∀ x, (check_service service_name service_type (some d) true st).store x
      = (check_service service_name service_type (some d) false st).store x := by
  refine ⟨?_, ?_, ?_⟩
  · simp [check_service, h]
  · simp [check_service, h, putKV]
  · intro x
    by_cases hc : (get_status_info d service_type).id = some last
    · simp only [check_service, h, hc, putKV]
      simp only [ne_eq, not_true_eq_false, decide_False, Bool.true_or,
        Bool.false_or, Bool.false_eq_true, if_false, if_true]
      by_cases hx : x = kv_key service_name
      · subst hx
        simp only [putKV, if_pos rfl]
        exact h.symm
      · simp [putKV, hx]
    · have htrue : decide ((get_status_info d service_type).id ≠ some last)
          = true := by simp [hc]
      simp [check_service, h, htrue, putKV]

/-- Witness for C4 amended at an unchanged identity. -/
theorem c4_amended_force_flag_witness :
    single_store "svc" "operational|OK" (kv_key "svc") = some "operational|OK"
  ∧ (((check_service "svc" "statuspage" (some (sp_payload "operational" "OK"))
        true (single_store "svc" "operational|OK")).result.map
          (fun r => r.changed)) = some true
    ∧ (check_service "svc" "statuspage" (some (sp_payload "operational" "OK"))
        true (single_store "svc" "operational|OK")).store (kv_key "svc")
      = (get_status_info (sp_payload "operational" "OK") "statuspage").id
    ∧ ∀ x, (check_service "svc" "statuspage"
        (some (sp_payload "operational" "OK")) true
        (single_store "svc" "operational|OK")).store x
      = (check_service "svc" "statuspage"
          (some (sp_payload "operational" "OK")) false
          (single_store "svc" "operational|OK")).store x) :=
  ⟨rfl, c4_amended_force_flag "svc" "statuspage" (sp_payload "operational" "OK")
    (single_store "svc" "operational|OK") "operational|OK" rfl⟩

/-- C5 counterexample: the claim quantifies over payloads with the same SET
of incident IDs; the code sorts the ID LIST (multiset semantics), so the
payloads with ID lists `[a, a]` and `[a]` — the same ID set — produce
different identities (`events_a,a` vs `events_a`). -/
theorem c5_counterexample :
    (aliyun_ids (aliyun_payload ["a", "a"])).dedup
      = (aliyun_ids (aliyun_payload ["a"])).dedup
  ∧ aliyun_ids (aliyun_payload ["a", "a"]) ≠ []
  ∧ aliyun_ids (aliyun_payload ["a"]) ≠ []
  ∧ ((aliyun_adapter_fetch (some (aliyun_payload ["a", "a"]))).map
        (fun r => r.id))
    = some (some "events_a,a")
  ∧ ((aliyun_adapter_fetch (some (aliyun_payload ["a"]))).map (fun r => r.id))
    = some (some "events_a")
  ∧ some (some "events_a,a") ≠ (some (some "events_a") : Option (Option String)) :=
  ⟨by decide, by decide, by decide, by decide, by decide, by decide⟩

/-- C5 amended: for non-empty incident lists whose ID lists are permutations
of each other (same multiset, possibly different order), the vendor-incidents
adapter produces equal identities (sorted, comma-joined IDs behind the
`events_` tag), with `indicator=minor` and equal active-incident-count
descriptions. -/
theorem c5_amended_sorted_ids (d1 d2 : PyData)
    (h1 : d1.events.getD [] ≠ [])
    (hperm : (aliyun_ids d1).Perm (aliyun_ids d2)) :
    ((aliyun_adapter_fetch (some d1)).map (fun r => r.id))
      = ((aliyun_adapter_fetch (some d2)).map (fun r => r.id))
  ∧ ((aliyun_adapter_fetch (some d1)).map (fun r => r.indicator)) = some "minor"
  ∧ ((aliyun_adapter_fetch (some d2)).map (fun r => r.indicator)) = some "minor"
  ∧ ((aliyun_adapter_fetch (some d1)).map (fun r => r.description))
      = ((aliyun_adapter_fetch (some d2)).map (fun r => r.description)) := by
  have hlen : (aliyun_ids d1).length = (aliyun_ids d2).length := hperm.length_eq
  have h2 : d2.events.getD [] ≠ [] := by
    intro hnil
    apply h1
    have hz : (aliyun_ids d1).length = 0 := by
      rw [hlen]
      simp [aliyun_ids, hnil]
    have hzz := List.length_eq_zero.mp hz
    rw [aliyun_ids] at hzz
    exact List.map_eq_nil_iff.mp hzz
  rcases he1 : d1.events.getD [] with - | ⟨e1, r1⟩
  · exact absurd he1 h1
  rcases he2 : d2.events.getD [] with - | ⟨e2, r2⟩
  · exact absurd he2 h2
  have hid1 : aliyun_ids d1 = (e1 :: r1).map (fun ev => ev.id.getD "unknown") := by
    rw [aliyun_ids, he1]
  have hid2 : aliyun_ids d2 = (e2 :: r2).map (fun ev => ev.id.getD "unknown") := by
    rw [aliyun_ids, he2]
  have hsort : pySorted (e1.id.getD "unknown"
        :: r1.map (fun ev => ev.id.getD "unknown"))
      = pySorted (e2.id.getD "unknown"
        :: r2.map (fun ev => ev.id.getD "unknown")) := by
    apply pySorted_eq_of_perm
    rw [hid1, hid2] at hperm
    simpa using hperm
  have hlen2 : r1.length = r2.length := by
    have hl := hlen
    rw [hid1, hid2] at hl
    simpa using hl
  refine ⟨?_, ?_, ?_, ?_⟩ <;>
    simp [aliyun_adapter_fetch, he1, he2, hsort, hlen2]

/-- Witness for C5 amended: the event lists `[b, a]` and `[a, b]` (a
permutation) both yield identity `events_a,b`. -/
theorem c5_amended_sorted_ids_witness :
    (aliyun_payload ["b", "a"]).events.getD [] ≠ []
  ∧ (((aliyun_adapter_fetch (some (aliyun_payload ["b", "a"]))).map
        (fun r => r.id))
      = ((aliyun_adapter_fetch (some (aliyun_payload ["a", "b"]))).map
          (fun r => r.id))
    ∧ ((aliyun_adapter_fetch (some (aliyun_payload ["b", "a"]))).map
        (fun r => r.indicator)) = some "minor"
    ∧ ((aliyun_adapter_fetch (some (aliyun_payload ["a", "b"]))).map
        (fun r => r.indicator)) = some "minor"
    ∧ ((aliyun_adapter_fetch (some (aliyun_payload ["b", "a"]))).map
        (fun r => r.description))
      = ((aliyun_adapter_fetch (some (aliyun_payload ["a", "b"]))).map
          (fun r => r.description)))
  ∧ ((aliyun_adapter_fetch (some (aliyun_payload ["b", "a"]))).map
      (fun r => r.id)) = some (some "events_a,b") :=
  ⟨by decide,
   c5_amended_sorted_ids (aliyun_payload ["b", "a"]) (aliyun_payload ["a", "b"])
     (by decide) (List.Perm.swap "a" "b" []),
   by decide⟩

/-- C6 counterexample: on an empty feed the claim expects indicator
`none-updates`; both the feed adapter and `get_status_info` return indicator
`none` (with identity `empty`). -/
theorem c6_counterexample :
    ((rss_adapter_fetch (some ⟨none, some [], none, none, none⟩)).map
        (fun r => r.indicator)) = some "none"
  ∧ ((rss_adapter_fetch (some ⟨none, some [], none, none, none⟩)).map
        (fun r => r.id)) = some (some "empty")
  ∧ (get_status_info ⟨none, some [], none, none, none⟩ "rss").indicator = "none"
  ∧ ("none" : String) ≠ "none-updates" :=
  ⟨by decide, by decide, by decide, by decide⟩

/-- C6 amended: for every successfully parsed feed whose entry list is empty
(or absent), the feed adapter returns the sentinel snapshot with indicator
`none` and identity `empty` (description `暂无更新` in the adapter,
`No updates` in `get_status_info`). -/
theorem c6_amended_empty_feed (d : PyData) (h : d.entries.getD [] = []) :
    rss_adapter_fetch (some d)
      = some ⟨"none", "暂无更新", some "empty", RawStatus.whole d, none⟩
  ∧ get_status_info d "rss" = ⟨"none", "No updates", some "empty", none, none⟩ := by
  constructor
  · simp [rss_adapter_fetch, h]
  · simp [get_status_info, h]

/-- Witness for C6 amended at a feed payload with an empty entry list. -/
theorem c6_amended_empty_feed_witness :
    ((⟨none, some [], none, none, none⟩ : PyData).entries.getD [] = [])
  ∧ (rss_adapter_fetch (some ⟨none, some [], none, none, none⟩)
      = some ⟨"none", "暂无更新", some "empty",
          RawStatus.whole ⟨none, some [], none, none, none⟩, none⟩
    ∧ get_status_info ⟨none, some [], none, none, none⟩ "rss"
      = ⟨"none", "No updates", some "empty", none, none⟩) :=
  ⟨rfl, c6_amended_empty_feed ⟨none, some [], none, none, none⟩ rfl⟩

/-- C7: when the stored identity equals the new snapshot identity, an
automatic (non-forced) check reports `changed=false`, issues no
`put_kv_data`, leaves the store exactly as it was, and sends no
notifications for that service in that cycle. -/
theorem c7_no_change_frame (targets : List String)
    (service_name service_type : String) (d : PyData) (st : Store) (c : String)
    (h1 : st (kv_key service_name) = some c)
    (h2 : (get_status_info d service_type).id = some c) :
    ((monitor_check_and_notify targets service_name service_type (some d)
        st).1.result.map (fun r => r.changed)) = some false
  ∧ (monitor_check_and_notify targets service_name service_type (some d)
      st).1.store = st
  ∧ (monitor_check_and_notify targets service_name service_type (some d)
      st).1.puts = []
  ∧ (monitor_check_and_notify targets service_name service_type (some d)
      st).2 = [] := by
  have hd : decide ((get_status_info d service_type).id ≠ some c) = false := by
    simp [h2]
  refine ⟨?_, ?_, ?_, ?_⟩ <;>
    simp [monitor_check_and_notify, check_service, h1, hd]

/-- Witness for C7: stored identity `operational|OK` equals the snapshot
identity — nothing is written and no notification goes out. -/
theorem c7_no_change_frame_witness :
    single_store "svc" "operational|OK" (kv_key "svc") = some "operational|OK"
  ∧ (get_status_info (sp_payload "operational" "OK") "statuspage").id
      = some "operational|OK"
  ∧ (((monitor_check_and_notify ["chat1"] "svc" "statuspage"
        (some (sp_payload "operational" "OK"))
        (single_store "svc" "operational|OK")).1.result.map
          (fun r => r.changed)) = some false
    ∧ (monitor_check_and_notify ["chat1"] "svc" "statuspage"
        (some (sp_payload "operational" "OK"))
        (single_store "svc" "operational|OK")).1.store
      = single_store "svc" "operational|OK"
    ∧ (monitor_check_and_notify ["chat1"] "svc" "statuspage"
        (some (sp_payload "operational" "OK"))
        (single_store "svc" "operational|OK")).1.puts = []
    ∧ (monitor_check_and_notify ["chat1"] "svc" "statuspage"
        (some (sp_payload "operational" "OK"))
        (single_store "svc" "operational|OK")).2 = []) :=
  ⟨rfl, by decide,
   c7_no_change_frame ["chat1"] "svc" "statuspage" (sp_payload "operational" "OK")
     (single_store "svc" "operational|OK") "operational|OK" rfl (by decide)⟩

/-- C8 counterexample: the claim says any change of the payload description
(indicator fixed) changes the identity.  The status-page adapter translates
descriptions through a lookup table first, and the table maps
`All Systems Operational` to `所有系统运行正常`, which is also a fixed point
of the translation: two payloads with these two DIFFERENT descriptions (same
indicator `none`) produce the SAME identity `none|所有系统运行正常`. -/
theorem c8_counterexample :
    ("All Systems Operational" : String) ≠ "所有系统运行正常"
  ∧ ((statuspage_adapter_fetch
        (some (sp_payload "none" "All Systems Operational"))).map
      (fun r => r.id)) = some (some "none|所有系统运行正常")
  ∧ ((statuspage_adapter_fetch
        (some (sp_payload "none" "所有系统运行正常"))).map
      (fun r => r.id)) = some (some "none|所有系统运行正常") :=
  ⟨by decide, by decide, by decide⟩

/-- C8 amended: identity is `indicator + "|" + description`, where the
status-page adapter first translates the description; identity changes
whenever the indicator changes (description fixed) or the TRANSLATED
description changes (indicator fixed).  For the untranslated
`get_status_info` variant in status_checker.py the sensitivity holds for the
raw description as well. -/
theorem c8_amended_sensitivity :
    (∀ i d1 d2 : String,
      translate_description d1 ≠ translate_description d2 →
      ((statuspage_adapter_fetch (some (sp_payload i d1))).map (fun r => r.id))
        ≠ ((statuspage_adapter_fetch (some (sp_payload i d2))).map (fun r => r.id)))
  ∧ (∀ i1 i2 d : String, i1 ≠ i2 →
      ((statuspage_adapter_fetch (some (sp_payload i1 d))).map (fun r => r.id))
        ≠ ((statuspage_adapter_fetch (some (sp_payload i2 d))).map (fun r => r.id)))
  ∧ (∀ i d1 d2 : String, d1 ≠ d2 →
      (get_status_info (sp_payload i d1) "statuspage").id
        ≠ (get_status_info (sp_payload i d2) "statuspage").id)
  ∧ (∀ i1 i2 d : String, i1 ≠ i2 →
      (get_status_info (sp_payload i1 d) "statuspage").id
        ≠ (get_status_info (sp_payload i2 d) "statuspage").id) := by
  refine ⟨?_, ?_, ?_, ?_⟩
  · intro i d1 d2 hne heq
    simp only [statuspage_adapter_fetch, sp_payload, Option.getD_some,
      Option.map_some', Option.some.injEq] at heq
    exact hne (string_append_right_inj (i ++ "|") heq)
  · intro i1 i2 d hne heq
    simp only [statuspage_adapter_fetch, sp_payload, Option.getD_some,
      Option.map_some', Option.some.injEq] at heq
    exact hne (string_append_left_inj "|"
      (string_append_left_inj (translate_description d) heq))
  · intro i d1 d2 hne heq
    simp only [get_status_info, sp_payload, Option.getD_some, if_true,
      Option.some.injEq] at heq
    exact hne (string_append_right_inj (i ++ "|") heq)
  · intro i1 i2 d hne heq
    simp only [get_status_info, sp_payload, Option.getD_some, if_true,
      Option.some.injEq] at heq
    exact hne (string_append_left_inj "|" (string_append_left_inj d heq))

/-- Witness for C8 amended at concrete indicator/description pairs. -/
theorem c8_amended_sensitivity_witness :
    translate_description "OK now" ≠ translate_description "Down"
  ∧ ((statuspage_adapter_fetch (some (sp_payload "none" "OK now"))).map
      (fun r => r.id))
    ≠ ((statuspage_adapter_fetch (some (sp_payload "none" "Down"))).map
      (fun r => r.id))
  ∧ ((statuspage_adapter_fetch (some (sp_payload "none" "Down"))).map
      (fun r => r.id))
    ≠ ((statuspage_adapter_fetch (some (sp_payload "major" "Down"))).map
      (fun r => r.id))
  ∧ (get_status_info (sp_payload "none" "OK now") "statuspage").id
    ≠ (get_status_info (sp_payload "none" "Down") "statuspage").id
  ∧ (get_status_info (sp_payload "none" "Down") "statuspage").id
    ≠ (get_status_info (sp_payload "major" "Down") "statuspage").id :=
  ⟨by decide,
   c8_amended_sensitivity.1 "none" "OK now" "Down" (by decide),
   c8_amended_sensitivity.2.1 "none" "major" "Down" (by decide),
   c8_amended_sensitivity.2.2.1 "none" "OK now" "Down" (by decide),
   c8_amended_sensitivity.2.2.2 "none" "major" "Down" (by decide)⟩

/-- Invariant carrier for C9: from any backoff value in `[5, 60]`, every
later backoff value stays in `[5, 60]` and every backoff sleep lies in
`[5, 60]`. -/
theorem backoff_inv_aux : ∀ (t : List Bool) (b : Nat), 5 ≤ b → b ≤ 60 →
    ((5 ≤ run_backoff t b ∧ run_backoff t b ≤ 60)
  ∧ (backoff_sleeps t b).all (fun s => decide (5 ≤ s) && decide (s ≤ 60)) = true)
  | [], _, hb1, hb2 => ⟨⟨hb1, hb2⟩, rfl⟩
  | ok :: rest, b, hb1, hb2 => by
    cases ok
    · have ih := backoff_inv_aux rest (min (b * 2) 60) (by omega) (by omega)
      have hh : (decide (5 ≤ b) && decide (b ≤ 60)) = true := by
        simp [hb1, hb2]
      exact ⟨by simpa [run_backoff] using ih.1,
        by simpa [backoff_sleeps, hh] using ih.2⟩
    · have ih := backoff_inv_aux rest 5 (by omega) (by omega)
      exact ⟨by simpa [run_backoff] using ih.1,
        by simpa [backoff_sleeps] using ih.2⟩

/-- C9: starting from the initial backoff of 5 seconds, the loop's error
backoff always lies between 5 and 60 seconds, every backoff sleep lies
between 5 and 60 seconds, a successful cycle resets the backoff to the
initial 5 seconds and a failure doubles it capped at 60. -/
theorem c9_backoff_invariant (trace : List Bool) :
    (5 ≤ run_backoff trace error_backoff_init
      ∧ run_backoff trace error_backoff_init ≤ 60)
  ∧ (backoff_sleeps trace error_backoff_init).all
      (fun s => decide (5 ≤ s) && decide (s ≤ 60)) = true
  ∧ run_backoff (trace ++ [true]) error_backoff_init = error_backoff_init
  ∧ run_backoff (trace ++ [false]) error_backoff_init
      = min (run_backoff trace error_backoff_init * 2) 60 := by
  have h := backoff_inv_aux trace 5 (by omega) (by omega)
  refine ⟨h.1, h.2, ?_, ?_⟩
  · simp [run_backoff, error_backoff_init]
  · simp [run_backoff, error_backoff_init]

/-- C10: on a first-ever observation (no stored identity), `ignore_cache=true`
behaves identically to `ignore_cache=false`: the flag is only consulted on
the non-baseline branch, so the check still returns `changed=false` and
stores the snapshot identity as the baseline. -/
theorem c10_force_flag_baseline (service_name service_type : String)
    (d : PyData) (st : Store)
    (h : st (kv_key service_name) = none) :
    check_service service_name service_type (some d) true st
      = check_service service_name service_type (some d) false st
  ∧ ((check_service service_name service_type (some d) true st).result.map
      (fun r => r.changed)) = some false
  ∧ (check_service service_name service_type (some d) true st).store
      (kv_key service_name) = (get_status_info d service_type).id := by
  refine ⟨?_, ?_, ?_⟩
  · simp [check_service, h]
  · simp [check_service, h]
  · simp [check_service, h, putKV]

/-- Witness for C10 on an empty store. -/
theorem c10_force_flag_baseline_witness :
    empty_store (kv_key "svc") = none
  ∧ (check_service "svc" "statuspage" (some (sp_payload "major" "Outage"))
      true empty_store
    = check_service "svc" "statuspage" (some (sp_payload "major" "Outage"))
      false empty_store
    ∧ ((check_service "svc" "statuspage" (some (sp_payload "major" "Outage"))
        true empty_store).result.map (fun r => r.changed)) = some false
    ∧ (check_service "svc" "statuspage" (some (sp_payload "major" "Outage"))
        true empty_store).store (kv_key "svc")
      = (get_status_info (sp_payload "major" "Outage") "statuspage").id) :=
  ⟨rfl, c10_force_flag_baseline "svc" "statuspage" (sp_payload "major" "Outage")
    empty_store rfl⟩

end SW
